import Mathlib

/-!
Verification of the fleet-reconciliation engine of the github-runner-operator
repository: a shallow embedding of `RunnerManager`
(github-runner-manager/src/github_runner_manager/manager/runner_manager.py)
and `OpenstackRunnerManager` (src/openstack_cloud/openstack_runner_manager.py),
with theorems about runner reconciliation, cleanup, batch creation, deletion
and metrics pulling.

External collaborators (the coordination-service client, the cloud API and the
remote shell) are parameters of the embedded functions: each embedded operation
takes the data those collaborators would return and, where the source performs
externally visible actions, additionally returns the list of actions performed
(an `Event` trace) so that ordering and side-effect claims can be stated.
-/

set_option autoImplicit false

/-- Modelled from the spec (the module defining InstanceID is not part of the
source tree): an opaque unique identifier carrying a boolean reactive flag
marking whether the instance was created by the on-demand path.  The `name`
field is the identifier used as the join key between the cloud view and the
coordination-service view. -/
structure InstanceID where
  name : String
  reactive : Bool
deriving DecidableEq, Repr

/-- Modelled from the spec (the module defining CloudRunnerState is not part of
the source tree): enum over created, active, stopped, error, deleted describing
the provider-reported lifecycle. -/
inductive CloudRunnerState where
  | created
  | active
  | stopped
  | error
  | deleted
deriving DecidableEq, Repr

/-- Modelled from the spec (the module defining HealthState is not part of the
source tree): enum with healthy and unhealthy. -/
inductive HealthState where
  | healthy
  | unhealthy
deriving DecidableEq, Repr

/-- Modelled from the spec (the module defining GitHubRunnerState is not part
of the source tree): the coordination-service state; online runners are busy
or idle, the remaining state is offline. -/
inductive GitHubRunnerState where
  | busy
  | idle
  | offline
deriving DecidableEq, Repr

/-- Modelled from the spec (the module defining SelfHostedRunner is not part of
the source tree): a coordination-service registration record with an instance
id, an online or offline status and a busy flag. -/
structure SelfHostedRunner where
  instance_id : InstanceID
  online : Bool
  busy : Bool
deriving DecidableEq, Repr

/-- Modelled from the spec: GitHubRunnerState is derived from the coordination
service's reported status plus a busy flag. -/
def GitHubRunnerState.from_runner (r : SelfHostedRunner) : GitHubRunnerState :=
  if r.online then (if r.busy then .busy else .idle) else .offline

/-- The per-runner data the cloud runner manager reports for an instance, as
consumed by `RunnerInstance.__init__`: name, instance id, health and cloud
state. -/
structure CloudRunnerInstance where
  name : String
  instance_id : InstanceID
  health : HealthState
  state : CloudRunnerState
deriving DecidableEq, Repr

/-- Structure `RunnerInstance` from runner_manager.py: the merged view of one cloud
instance joined with an optional coordination-service record. -/

structure RunnerInstance where
  name : String
  instance_id : InstanceID
  health : HealthState
  github_state : Option GitHubRunnerState
  cloud_state : CloudRunnerState
deriving DecidableEq, Repr

/-- Constructor `RunnerInstance.__init__`: fields are copied from the cloud instance and
the github state is derived from the optional github record, `none` when the
record is absent. -/
def RunnerInstance.ofCloudAndGithub (cloud_instance : CloudRunnerInstance)
    (github_info : Option SelfHostedRunner) : RunnerInstance where
  name := cloud_instance.name
  instance_id := cloud_instance.instance_id
  health := cloud_instance.health
  github_state := github_info.map GitHubRunnerState.from_runner
  cloud_state := cloud_instance.state

/-! ### Python dict model

The source builds Python dict comprehensions keyed by name or instance id.
A Python dict keeps keys in first-insertion order and keeps the value of the
last insertion for a repeated key; we model it as an association list built by
`dictInsert`, which overrides in place. -/

/-- Insert a key/value pair, overriding the value in place when the key is
already present (Python dict assignment). -/
def dictInsert {κ α : Type} [DecidableEq κ] (k : κ) (v : α) :
    List (κ × α) → List (κ × α)
  | [] => [(k, v)]
  | (k', v') :: rest =>
      if k' = k then (k, v) :: rest else (k', v') :: dictInsert k v rest

/-- Build the dict of a comprehension keyed by `key`. -/
def dictOf {κ α : Type} [DecidableEq κ] (key : α → κ) (xs : List α) :
    List (κ × α) :=
  xs.foldl (fun m x => dictInsert (key x) x m) []

/-- Dict lookup. -/
def dictGet? {κ α : Type} [DecidableEq κ] (m : List (κ × α)) (k : κ) :
    Option α :=
  (m.find? (fun p => decide (p.1 = k))).map (·.2)

/-! ### Externally visible actions

Each embedded operation that performs calls on the collaborators also returns
the list of those calls, so ordering and side-effect claims are statable. -/

/-- One externally visible action of the engine or the cloud manager. -/
inductive Event where
  | listGithubRunners
  | listCloudRunners
  | getRemovalToken
  | pullMetrics (name : String)
  | runRemovalScript (name : String)
  | deleteInstance (name : String)
  | cloudFlush (busy : Bool)
  | githubDeleteRunner (id : InstanceID)
  | githubRegisterRunner (id : InstanceID)
  | cloudCleanupResources
deriving DecidableEq, Repr

/-- Method `RunnerManager.get_runners`: the merged view.  `github_infos` is the data
returned by the coordination-service list call (already narrowed by the server
when a github filter is passed) and `cloud_infos` the data returned by the
cloud list call.  The source builds a dict of github records keyed by
`instance_id.name`, a dict of cloud records keyed by `name`, merges over the
cloud dict's entries and then applies the optional local state filters. -/
def get_runners (github_infos : List SelfHostedRunner)
    (cloud_infos : List CloudRunnerInstance)
    (github_states : Option (List GitHubRunnerState))
    (cloud_states : Option (List CloudRunnerState)) : List RunnerInstance :=
  let github_infos_map := dictOf (fun info => info.instance_id.name) github_infos
  let cloud_infos_map := dictOf (fun info => info.name) cloud_infos
  let runner_instances := cloud_infos_map.map
    (fun p => RunnerInstance.ofCloudAndGithub p.2 (dictGet? github_infos_map p.1))
  let runner_instances₁ :=
    match cloud_states with
    | none => runner_instances
    | some states => runner_instances.filter (fun r => states.contains r.cloud_state)
  match github_states with
  | none => runner_instances₁
  | some states =>
      runner_instances₁.filter (fun r =>
        match r.github_state with
        | none => false
        | some s => states.contains s)

/-- The two collaborator calls `get_runners` performs, in source order; it
performs no other call and in particular no deletion. -/
def get_runners_events : List Event :=
  [Event.listGithubRunners, Event.listCloudRunners]

/-- The "cloud only" warning set of `get_runners`: names present in the cloud
dict whose name is absent from the github dict (the source computes cloud keys
minus the intersection of both key sets, which is the same set). -/
def cloud_only_names (github_infos : List SelfHostedRunner)
    (cloud_infos : List CloudRunnerInstance) : List String :=
  ((dictOf (fun info => info.name) cloud_infos).map (·.1)).filter
    (fun n =>
      (dictGet? (dictOf (fun info => info.instance_id.name) github_infos) n).isNone)

/-- Method `RunnerManager._cleanup_github_offline_runners`: `cloud_instances` is the
result of `get_runners()` and `github_runners_offline` the coordination-service
runners fetched in offline state.  The source keeps every non-reactive runner,
skips a reactive runner with no matching cloud instance, skips a reactive
runner whose cloud instance is created or active-and-healthy, and keeps the
rest; the kept list is passed to the coordination-service delete. -/
def cleanup_github_offline_runners (cloud_instances : List RunnerInstance)
    (github_runners_offline : List SelfHostedRunner) : List SelfHostedRunner :=
  let cloud_instances_map := dictOf (fun c => c.instance_id) cloud_instances
  github_runners_offline.filter (fun github_runner =>
    if !github_runner.instance_id.reactive then true
    else
      match dictGet? cloud_instances_map github_runner.instance_id with
      | none => false
      | some cloud_runner =>
          !(cloud_runner.cloud_state == CloudRunnerState.created ||
            (cloud_runner.cloud_state == CloudRunnerState.active &&
             cloud_runner.health == HealthState.healthy)))

/-- Concrete fixture for the C1 witness: a reactive offline runner whose
matching cloud instance is active and unhealthy. -/
def c1_gr : SelfHostedRunner := ⟨⟨"r-1", true⟩, false, false⟩

/-- Concrete fixture for the C1 witness: the matching cloud instance. -/
def c1_cloud : List RunnerInstance :=
  [⟨"r-1", ⟨"r-1", true⟩, HealthState.unhealthy, none, CloudRunnerState.active⟩]

/-- Concrete fixture for the C2 witness: a cloud instance with no matching
coordination-service record. -/
def c2_cloud_instance : CloudRunnerInstance :=
  ⟨"r-2", ⟨"r-2", false⟩, HealthState.healthy, CloudRunnerState.active⟩

/-- Error `RunnerError` from errors.py: the error a creation job raises; its message
payload is irrelevant to control flow. -/
inductive RunnerError where
  | mk
deriving DecidableEq, Repr

/-- The loop of `RunnerManager._spawn_runners_using_multiprocessing`: `num`
iterations each take the next pool result (given here in completion order); a
`RunnerError` re-raised by `next(jobs)` is caught and logged, an exhausted
iterator breaks, and a success is appended to the accumulated list. -/
def spawn_runners_mp_loop :
    Nat → List (Except RunnerError InstanceID) → List InstanceID →
      List InstanceID
  | 0, _, acc => acc
  | _ + 1, [], acc => acc
  | n + 1, Except.ok instance_id :: rest, acc =>
      spawn_runners_mp_loop n rest (acc ++ [instance_id])
  | n + 1, Except.error _ :: rest, acc => spawn_runners_mp_loop n rest acc

/-- Method `RunnerManager._spawn_runners_using_multiprocessing`: collect the results
of the `num = jobs.length` creation jobs, keeping the InstanceIDs of the
successful ones. -/
def spawn_runners_using_multiprocessing
    (jobs : List (Except RunnerError InstanceID)) : List InstanceID :=
  spawn_runners_mp_loop jobs.length jobs []

/-- Method `RunnerManager._spawn_runners`: with exactly one job the job runs in the
current process inside a try block that catches `RunnerError` (logging it and
returning an empty tuple); with any other number of jobs it delegates to the
pool.  The `Except` result type records whether a `RunnerError` escapes to the
caller of `create_runners`. -/
def spawn_runners (jobs : List (Except RunnerError InstanceID)) :
    Except RunnerError (List InstanceID) :=
  if jobs.length = 1 then
    match jobs.head? with
    | some (Except.ok instance_id) => Except.ok [instance_id]
    | some (Except.error _) => Except.ok []
    | none => Except.ok []
  else
    Except.ok (spawn_runners_using_multiprocessing jobs)

/-- The InstanceIDs of the jobs that succeeded, in the given order. -/
def successfulIds (jobs : List (Except RunnerError InstanceID)) :
    List InstanceID :=
  jobs.filterMap (fun j =>
    match j with
    | Except.ok instance_id => some instance_id
    | Except.error _ => none)

/-- Concrete fixture for the C3 witness: three creation jobs of which the
second fails. -/
def c3_jobs : List (Except RunnerError InstanceID) :=
  [Except.ok ⟨"r-3a", false⟩, Except.error RunnerError.mk,
    Except.ok ⟨"r-3b", false⟩]

/-- The calls `OpenstackRunnerManager._delete_runner` makes for one instance,
in source order: pull the metrics-exchange files over SSH, run the in-instance
removal script with the removal token, then delete the cloud instance. -/
def delete_runner_events (name : String) : List Event :=
  [Event.pullMetrics name, Event.runRemovalScript name, Event.deleteInstance name]

/-- The deletion calls for a batch of runner names, one
`delete_runner_events` block per name, sequentially. -/
def delete_batch_events (names : List String) : List Event :=
  names.flatMap delete_runner_events

/-- Method `RunnerManager.delete_runners` followed by `_delete_runners`: take the
first `num` runners of the unfiltered `get_runners()` result, obtain one
removal token, and delete each selected runner sequentially through the cloud
runner manager.  The value is the full list of collaborator calls in order. -/
def delete_runners (github_infos : List SelfHostedRunner)
    (cloud_infos : List CloudRunnerInstance) (num : Nat) : List Event :=
  let runners_list := (get_runners github_infos cloud_infos none none).take num
  get_runners_events ++ [Event.getRemovalToken] ++
    runners_list.flatMap (fun runner => delete_runner_events runner.name)

/-- The name deleted by a `deleteInstance` event. -/
def deleteName? : Event → Option String
  | Event.deleteInstance name => some name
  | _ => none

/-- The name whose metrics a `pullMetrics` event pulls. -/
def pullName? : Event → Option String
  | Event.pullMetrics name => some name
  | _ => none

/-- Concrete fixture for the C5 witness: a fleet of five cloud instances. -/
def c5_cloud : List CloudRunnerInstance :=
  [⟨"r-5a", ⟨"r-5a", false⟩, HealthState.healthy, CloudRunnerState.active⟩,
   ⟨"r-5b", ⟨"r-5b", false⟩, HealthState.healthy, CloudRunnerState.active⟩,
   ⟨"r-5c", ⟨"r-5c", false⟩, HealthState.healthy, CloudRunnerState.active⟩,
   ⟨"r-5d", ⟨"r-5d", false⟩, HealthState.healthy, CloudRunnerState.active⟩,
   ⟨"r-5e", ⟨"r-5e", false⟩, HealthState.healthy, CloudRunnerState.active⟩]

/-! ### OpenstackRunnerManager: cleanup, health classification, metrics pull -/

/-- Modelled from the spec: the provider's native server status, from which
CloudRunnerState is derived deterministically. -/
inductive OpenstackServerStatus where
  | build
  | active
  | stopped
  | error
  | deleted
deriving DecidableEq, Repr

/-- Modelled from the spec: `CloudRunnerState.from_openstack_server_status`
(its defining module is not part of the source tree), the deterministic map
from the provider's native status onto the five lifecycle states. -/
def CloudRunnerState.from_openstack_server_status :
    OpenstackServerStatus → CloudRunnerState
  | OpenstackServerStatus.build => CloudRunnerState.created
  | OpenstackServerStatus.active => CloudRunnerState.active
  | OpenstackServerStatus.stopped => CloudRunnerState.stopped
  | OpenstackServerStatus.error => CloudRunnerState.error
  | OpenstackServerStatus.deleted => CloudRunnerState.deleted

/-- An OpenStack server as listed by `OpenstackCloud.get_instances`. -/
structure OpenstackInstance where
  server_name : String
  instance_id : String
  status : OpenstackServerStatus
deriving DecidableEq, Repr

/-- Error `SshError` from errors.py: an SSH connection failure; its message payload
is irrelevant to control flow. -/
inductive SshError where
  | mk
deriving DecidableEq, Repr

/-- Constant `tries` of the retry decorator on `_health_check`. -/
def health_check_tries : Nat := 3

/-- Constant `delay` (seconds) of the retry decorator on `_health_check`. -/
def health_check_delay : Nat := 5

/-- Constant `backoff` factor of the retry decorator on `_health_check`. -/
def health_check_backoff : Nat := 2

/-- Modelled from the spec (utilities.retry is not part of the source tree):
the retry decorator runs the operation up to `tries` times, sleeping between
attempts (delays scale by the backoff factor and do not affect the value),
returns the first successful result, and re-raises the last attempt's error
when every attempt fails.  `f n` is the outcome of attempt `n`. -/
def retryCall (f : Nat → Except SshError Bool) :
    Nat → Nat → Except SshError Bool
  | attempt, 0 => f attempt
  | attempt, 1 => f attempt
  | attempt, n + 2 =>
      match f attempt with
      | Except.ok b => Except.ok b
      | Except.error _ => retryCall f (attempt + 1) (n + 1)

/-- Method `OpenstackRunnerManager._health_check`: the SSH process-presence probe
under the retry decorator (tries 3, delay 5, backoff 2).  `probe instance n`
is the outcome of attempt `n` on the instance: an SSH connection failure
raises `SshError` (re-raised by the probe body), otherwise the remote
`ps aux` check yields a Bool. -/
def health_check (probe : OpenstackInstance → Nat → Except SshError Bool)
    (inst : OpenstackInstance) : Except SshError Bool :=
  retryCall (probe inst) 0 health_check_tries

/-- Structure `RunnerHealth` from openstack_runner_manager.py. -/
structure RunnerHealth where
  healthy : List OpenstackInstance
  unhealthy : List OpenstackInstance
deriving DecidableEq, Repr

/-- The state test of `_get_runner_health`: a cloud state among deleted,
error, stopped is unhealthy without probing. -/
def state_unhealthy (runner : OpenstackInstance) : Bool :=
  let cloud_state := CloudRunnerState.from_openstack_server_status runner.status
  cloud_state == CloudRunnerState.deleted ||
    cloud_state == CloudRunnerState.error ||
      cloud_state == CloudRunnerState.stopped

/-- Method `OpenstackRunnerManager._get_runner_health`: classify every instance;
deleted/error/stopped is unhealthy regardless of the probe (short-circuit: the
probe is not run), otherwise the health probe decides.  A probe `SshError` is
not caught in the source loop, so it propagates out of the classification. -/
def get_runner_health (probe : OpenstackInstance → Nat → Except SshError Bool) :
    List OpenstackInstance → Except SshError RunnerHealth
  | [] => Except.ok ⟨[], []⟩
  | runner :: rest =>
      if state_unhealthy runner then
        match get_runner_health probe rest with
        | Except.error e => Except.error e
        | Except.ok rh => Except.ok ⟨rh.healthy, runner :: rh.unhealthy⟩
      else
        match health_check probe runner with
        | Except.error e => Except.error e
        | Except.ok ok =>
            match get_runner_health probe rest with
            | Except.error e => Except.error e
            | Except.ok rh =>
                if ok then Except.ok ⟨runner :: rh.healthy, rh.unhealthy⟩
                else Except.ok ⟨rh.healthy, runner :: rh.unhealthy⟩

/-- The healthy side of the classification, as a Bool. -/
def classified_healthy (probe : OpenstackInstance → Nat → Except SshError Bool)
    (runner : OpenstackInstance) : Bool :=
  !state_unhealthy runner &&
    (match health_check probe runner with
     | Except.ok true => true
     | _ => false)

/-- The unhealthy side of the classification, as a Bool. -/
def classified_unhealthy
    (probe : OpenstackInstance → Nat → Except SshError Bool)
    (runner : OpenstackInstance) : Bool :=
  state_unhealthy runner ||
    (match health_check probe runner with
     | Except.ok false => true
     | _ => false)

/-- Method `OpenstackRunnerManager.cleanup`: classify the instances, extract metrics
for the healthy set, delete every unhealthy instance via `_delete_runner`
(pull metrics, removal script, instance delete), then clean shared cloud
resources.  Returns the healthy names whose exchange artifacts are extracted,
together with the trace of cloud-side calls. -/
def openstack_cleanup
    (probe : OpenstackInstance → Nat → Except SshError Bool)
    (runner_list : List OpenstackInstance) :
    Except SshError (List String × List Event) :=
  match get_runner_health probe runner_list with
  | Except.error e => Except.error e
  | Except.ok runners =>
      let healthy_runner_names := runners.healthy.map (fun r => r.server_name)
      Except.ok (healthy_runner_names,
        delete_batch_events (runners.unhealthy.map (fun r => r.server_name)) ++
          [Event.cloudCleanupResources])

/-- Concrete fixtures for the C6 witness: a probe that answers true for the
instance named "r-6a" and false otherwise, never raising. -/

def c6_probe : OpenstackInstance → Nat → Except SshError Bool :=
  fun inst _ => Except.ok (inst.server_name == "r-6a")

/-- Concrete fixtures for the C6 witness: a healthy active instance, an
active instance whose probe says unhealthy, and a stopped instance. -/
def c6_runner_list : List OpenstackInstance :=
  [⟨"r-6a", "i-6a", OpenstackServerStatus.active⟩,
   ⟨"r-6b", "i-6b", OpenstackServerStatus.active⟩,
   ⟨"r-6c", "i-6c", OpenstackServerStatus.stopped⟩]

/-- A probe whose SSH connection fails on every attempt. -/
def c7_fail_probe : OpenstackInstance → Nat → Except SshError Bool :=
  fun _ _ => Except.error SshError.mk

/-- An active instance, so the health probe is consulted. -/
def c7_instance : OpenstackInstance :=
  ⟨"r-7", "i-7", OpenstackServerStatus.active⟩

/-- Constant `MAX_METRICS_FILE_SIZE` from openstack_runner_manager.py. -/
def MAX_METRICS_FILE_SIZE : Nat := 1024

/-- The remote path of the pre-job metrics file
(`METRICS_EXCHANGE_PATH / "pre-job-metrics.json"`). -/
def pre_job_metrics_path : String :=
  "/home/ubuntu/metrics-exchange/pre-job-metrics.json"

/-- The remote path of the post-job metrics file
(`METRICS_EXCHANGE_PATH / "post-job-metrics.json"`). -/
def post_job_metrics_path : String :=
  "/home/ubuntu/metrics-exchange/post-job-metrics.json"

/-- The two exception kinds `_ssh_pull_file` can raise: `_PullFileError`
(stat failure, unparsable or oversize size, read failure) or `SshError`
(connection failure). -/
inductive PullError where
  | pullFileError
  | sshError
deriving DecidableEq, Repr

/-- The remote-shell environment `_ssh_pull_file` runs against: whether the
SSH connection works, the stat-reported size of each remote file (`none` when
stat fails or its output is unparsable), and whether the file transfer
succeeds. -/
structure SshEnv where
  sshOk : Bool
  fileSize : String → Option Nat
  getOk : String → Bool

/-- Method `OpenstackRunnerManager._ssh_pull_file`: stat the remote file (a
connection failure raises `SshError`, a failed stat or unparsable size raises
`_PullFileError`), raise `_PullFileError` when the size exceeds `max_size`,
then transfer the file (connection failure `SshError`, read failure
`_PullFileError`). -/
def ssh_pull_file (env : SshEnv) (remote_path : String) (max_size : Nat) :
    Except PullError Unit :=
  if !env.sshOk then Except.error PullError.sshError
  else
    match env.fileSize remote_path with
    | none => Except.error PullError.pullFileError
    | some size =>
        if size > max_size then Except.error PullError.pullFileError
        else if !env.getOk remote_path then Except.error PullError.pullFileError
        else Except.ok ()

/-- Method `OpenstackRunnerManager._pull_runner_metrics`: when the metrics storage is
unavailable, return with nothing pulled; otherwise pull the pre-job file and
then the post-job file inside one try block that catches `_PullFileError`
with a warning — `SshError` is not caught here (the caller `_delete_runner`
catches it).  Returns the list of files actually pulled. -/
def pull_runner_metrics (env : SshEnv) (storageOk : Bool) :
    Except PullError (List String) :=
  if !storageOk then Except.ok []
  else
    match ssh_pull_file env pre_job_metrics_path MAX_METRICS_FILE_SIZE with
    | Except.error PullError.sshError => Except.error PullError.sshError
    | Except.error PullError.pullFileError => Except.ok []
    | Except.ok _ =>
        match ssh_pull_file env post_job_metrics_path MAX_METRICS_FILE_SIZE with
        | Except.error PullError.sshError => Except.error PullError.sshError
        | Except.error PullError.pullFileError =>
            Except.ok [pre_job_metrics_path]
        | Except.ok _ =>
            Except.ok [pre_job_metrics_path, post_job_metrics_path]

/-- The metrics-pull phase of `_delete_runner`: its try block catches
`SshError` around the whole pull, so no metrics-pull failure can fail the
surrounding delete or cleanup loop; the instance teardown proceeds
regardless.  Returns the files pulled. -/
def delete_runner_pull_phase (env : SshEnv) (storageOk : Bool) :
    List String :=
  match pull_runner_metrics env storageOk with
  | Except.error _ => []
  | Except.ok pulled => pulled

/-- Environment for the C8 counterexample: the pre-job metrics file is 2000
bytes (over the 1024-byte cap), the post-job file is 10 bytes, SSH and
transfers work. -/
def c8_env : SshEnv where
  sshOk := true
  fileSize := fun path => if path = pre_job_metrics_path then some 2000
    else some 10
  getOk := fun _ => true

/-- Enum `FlushMode` from runner_manager.py. -/
inductive FlushMode where
  | FLUSH_IDLE
  | FLUSH_BUSY
deriving DecidableEq, Repr

/-- Method `RunnerManager.flush_runners`: log per mode, set the busy flag to true
exactly for FLUSH_BUSY, obtain one removal token and delegate selection and
removal entirely to the cloud runner manager's flush with that token and
flag.  The value is the trace of collaborator calls in order. -/
def flush_runners (flush_mode : FlushMode) : List Event :=
  let busy := match flush_mode with
    | FlushMode.FLUSH_BUSY => true
    | FlushMode.FLUSH_IDLE => false
  [Event.getRemovalToken, Event.cloudFlush busy]

/-- A cloud instance as seen by the cloud manager's flush, with the
provider-level busy signal. -/
structure FlushCandidate where
  name : String
  busy : Bool
deriving DecidableEq, Repr

/-- Modelled from the spec (the cloud manager's flush implementation is not
part of the source tree): flush removes the idle instances and, exactly when
the include-busy flag is set, also the busy ones. -/
def cloud_flush_selection (include_busy : Bool)
    (instances : List FlushCandidate) : List FlushCandidate :=
  instances.filter (fun i => !i.busy || include_busy)

/-- Method `RunnerManager._create_runner`: build the instance id, obtain the
registration jittoken (registering the runner with the coordination service),
then create the cloud instance; on `RunnerError` from the cloud create, the
just-registered coordination-service record is deleted before the error is
re-raised.  `cloud_create` is the outcome of the cloud manager's
`create_runner` call; the value is the outcome seen by the caller together
with the trace of coordination-service calls in order. -/
def create_runner (cloud_create : Except RunnerError Unit)
    (instance_id : InstanceID) :
    Except RunnerError InstanceID × List Event :=
  match cloud_create with
  | Except.ok _ =>
      (Except.ok instance_id, [Event.githubRegisterRunner instance_id])
  | Except.error e =>
      (Except.error e,
        [Event.githubRegisterRunner instance_id,
         Event.githubDeleteRunner instance_id])

theorem dictGet?_nil {κ α : Type} [DecidableEq κ] (k : κ) :
    dictGet? ([] : List (κ × α)) k = none := rfl

theorem dictGet?_cons {κ α : Type} [DecidableEq κ] (k₀ : κ) (v₀ : α)
    (m : List (κ × α)) (k : κ) :
    dictGet? ((k₀, v₀) :: m) k = if k₀ = k then some v₀ else dictGet? m k := by
  by_cases h : k₀ = k <;> simp [dictGet?, List.find?, h]

theorem mem_dictInsert {κ α : Type} [DecidableEq κ] (k : κ) (v : α)
    (m : List (κ × α)) : ∀ p ∈ dictInsert k v m, p = (k, v) ∨ p ∈ m := by
  induction m with
  | nil => intro p hp; simpa [dictInsert] using hp
  | cons q rest ih =>
      rcases q with ⟨k', v'⟩
      intro p hp
      by_cases hq : k' = k
      · simp only [dictInsert, if_pos hq, List.mem_cons] at hp
        rcases hp with h | h
        · exact Or.inl h
        · exact Or.inr (List.mem_cons_of_mem _ h)
      · simp only [dictInsert, if_neg hq, List.mem_cons] at hp
        rcases hp with h | h
        · exact Or.inr (by simp [h])
        · rcases ih p h with h' | h'
          · exact Or.inl h'
          · exact Or.inr (List.mem_cons_of_mem _ h')

theorem dictGet?_dictInsert_self {κ α : Type} [DecidableEq κ] (k : κ) (v : α)
    (m : List (κ × α)) : dictGet? (dictInsert k v m) k = some v := by
  induction m with
  | nil => simp [dictInsert, dictGet?_cons]
  | cons q rest ih =>
      rcases q with ⟨k', v'⟩
      by_cases hq : k' = k
      · simp [dictInsert, if_pos hq, dictGet?_cons]
      · simp [dictInsert, if_neg hq, dictGet?_cons, hq, ih]

theorem dictGet?_dictInsert_ne {κ α : Type} [DecidableEq κ] {k k' : κ}
    (v : α) (m : List (κ × α)) (h : k' ≠ k) :
    dictGet? (dictInsert k v m) k' = dictGet? m k' := by
  induction m with
  | nil => simp [dictInsert, dictGet?_cons, dictGet?_nil, Ne.symm h]
  | cons q rest ih =>
      rcases q with ⟨k₀, v₀⟩
      by_cases hq : k₀ = k
      · subst hq
        simp [dictInsert, dictGet?_cons, Ne.symm h]
      · simp [dictInsert, if_neg hq, dictGet?_cons, ih]

theorem foldl_dictInsert_mem {κ α : Type} [DecidableEq κ] (key : α → κ) :
    ∀ (xs : List α) (m : List (κ × α)) (p : κ × α),
      p ∈ xs.foldl (fun m x => dictInsert (key x) x m) m →
      p ∈ m ∨ ∃ x ∈ xs, p = (key x, x) := by
  intro xs
  induction xs with
  | nil => intro m p hp; exact Or.inl hp
  | cons x rest ih =>
      intro m p hp
      simp only [List.foldl_cons] at hp
      rcases ih _ p hp with h | h
      · rcases mem_dictInsert _ _ _ p h with h' | h'
        · exact Or.inr ⟨x, by simp, h'⟩
        · exact Or.inl h'
      · rcases h with ⟨y, hy, hpy⟩
        exact Or.inr ⟨y, List.mem_cons_of_mem _ hy, hpy⟩

theorem dictOf_mem {κ α : Type} [DecidableEq κ] (key : α → κ) (xs : List α)
    (p : κ × α) (hp : p ∈ dictOf key xs) : ∃ x ∈ xs, p = (key x, x) := by
  rcases foldl_dictInsert_mem key xs [] p hp with h | h
  · simp at h
  · exact h

theorem dictGet?_eq_some_mem {κ α : Type} [DecidableEq κ] {m : List (κ × α)}
    {k : κ} {v : α} (h : dictGet? m k = some v) : (k, v) ∈ m := by
  unfold dictGet? at h
  rcases Option.map_eq_some'.mp h with ⟨p, hfind, hv⟩
  have hk : p.1 = k := by simpa using List.find?_some hfind
  have hm : p ∈ m := List.mem_of_find?_eq_some hfind
  have : p = (k, v) := by
    rcases p with ⟨a, b⟩
    simp only at hk hv
    simp [hk, hv]
  exact this ▸ hm

theorem dictGet?_dictOf_eq_none_iff {κ α : Type} [DecidableEq κ]
    (key : α → κ) (xs : List α) (k : κ) :
    dictGet? (dictOf key xs) k = none ↔ ∀ x ∈ xs, key x ≠ k := by
  have aux : ∀ (ys : List α) (m : List (κ × α)),
      dictGet? (ys.foldl (fun m x => dictInsert (key x) x m) m) k = none ↔
        (dictGet? m k = none ∧ ∀ x ∈ ys, key x ≠ k) := by
    intro ys
    induction ys with
    | nil => intro m; simp
    | cons x rest ih =>
        intro m
        simp only [List.foldl_cons]
        rw [ih]
        by_cases hx : key x = k
        · rw [← hx]
          simp [dictGet?_dictInsert_self, hx]
        · rw [dictGet?_dictInsert_ne x m (Ne.symm hx)]
          simp [hx, List.forall_mem_cons]
  rw [dictOf, aux]
  simp [dictGet?_nil]

theorem dictGet?_dictOf_value {κ α : Type} [DecidableEq κ] {key : α → κ}
    {xs : List α} {k : κ} {v : α} (h : dictGet? (dictOf key xs) k = some v) :
    v ∈ xs ∧ key v = k := by
  have hm := dictGet?_eq_some_mem h
  rcases dictOf_mem key xs _ hm with ⟨x, hx, hp⟩
  have hkx : k = key x := congrArg Prod.fst hp
  have hvx : v = x := congrArg Prod.snd hp
  subst hvx
  exact ⟨hx, hkx.symm⟩

theorem dictGet?_dictOf_isSome {κ α : Type} [DecidableEq κ]
    (key : α → κ) (xs : List α) {x : α} (hx : x ∈ xs) :
    ∃ v, dictGet? (dictOf key xs) (key x) = some v := by
  cases h : dictGet? (dictOf key xs) (key x) with
  | some v => exact ⟨v, rfl⟩
  | none =>
      exact absurd rfl ((dictGet?_dictOf_eq_none_iff key xs (key x)).mp h x hx)

/-- Claim C1. `cleanup()`'s offline coordination-service reconciliation deletes
exactly: every non-reactive offline runner unconditionally, and a reactive
offline runner iff a matching cloud instance exists and that instance is
neither created nor active-and-healthy.  The second conjunct identifies "no
map entry" with "no matching cloud instance" and the third conjunct says the
map entry is a matching member of the cloud instance list, so in particular a
reactive offline runner with no matching cloud instance, or one whose matching
instance is created or active-and-healthy, is never deleted, while an
active-and-unhealthy one is deleted. -/
theorem c1_offline_cleanup_deletes_exactly
    (cloud_instances : List RunnerInstance)
    (github_runners_offline : List SelfHostedRunner)
    (gr : SelfHostedRunner) (hgr : gr ∈ github_runners_offline) :
    (gr ∈ cleanup_github_offline_runners cloud_instances github_runners_offline ↔
      (gr.instance_id.reactive = false ∨
        ∃ cloud_runner,
          dictGet? (dictOf (fun c => c.instance_id) cloud_instances)
              gr.instance_id = some cloud_runner ∧
          cloud_runner.cloud_state ≠ CloudRunnerState.created ∧
          ¬(cloud_runner.cloud_state = CloudRunnerState.active ∧
            cloud_runner.health = HealthState.healthy))) ∧
    (dictGet? (dictOf (fun c => c.instance_id) cloud_instances) gr.instance_id
        = none ↔ ∀ c ∈ cloud_instances, c.instance_id ≠ gr.instance_id) ∧
    (∀ cloud_runner,
      dictGet? (dictOf (fun c => c.instance_id) cloud_instances) gr.instance_id
          = some cloud_runner →
      cloud_runner ∈ cloud_instances ∧ cloud_runner.instance_id = gr.instance_id) := by
  refine ⟨?_, ?_, ?_⟩
  · rw [cleanup_github_offline_runners, List.mem_filter]
    simp only [hgr, true_and]
    cases hre : gr.instance_id.reactive with
    | false =>
        simp [hre]
    | true =>
        cases h : dictGet? (dictOf (fun c => c.instance_id) cloud_instances)
            gr.instance_id with
        | none => simp [hre, h]
        | some cloud_runner =>
            simp only [hre, Bool.not_true, Bool.false_eq_true, if_false, h,
              Bool.not_eq_true', Bool.or_eq_false_iff, Bool.and_eq_false_iff,
              beq_eq_false_iff_ne, ne_eq, Option.some.injEq]
            constructor
            · rintro ⟨h1, h2⟩
              refine Or.inr ⟨cloud_runner, rfl, h1, ?_⟩
              rintro ⟨ha, hh⟩
              rcases h2 with h2 | h2
              · exact h2 ha
              · exact h2 hh
            · rintro (hfalse | ⟨cr, hcr, h1, h2⟩)
              · simp at hfalse
              · cases hcr
                refine ⟨h1, ?_⟩
                by_cases ha : cloud_runner.cloud_state = CloudRunnerState.active
                · exact Or.inr (fun hh => h2 ⟨ha, hh⟩)
                · exact Or.inl ha
  · exact dictGet?_dictOf_eq_none_iff (fun c => c.instance_id) cloud_instances
      gr.instance_id
  · intro cloud_runner h
    exact dictGet?_dictOf_value h

/-- Witness for C1: the theorem applied at a concrete reactive offline runner
with an active-and-unhealthy matching cloud instance. -/
theorem c1_offline_cleanup_deletes_exactly_witness :
    c1_gr ∈ [c1_gr] ∧
    c1_gr ∈ cleanup_github_offline_runners c1_cloud [c1_gr] :=
  ⟨List.mem_singleton.mpr rfl,
    ((c1_offline_cleanup_deletes_exactly c1_cloud [c1_gr] c1_gr
        (List.mem_singleton.mpr rfl)).1).mpr
      (Or.inr ⟨⟨"r-1", ⟨"r-1", true⟩, HealthState.unhealthy, none,
          CloudRunnerState.active⟩, by decide, by decide, by decide⟩)⟩

/-- Claim C2. An InstanceID present in the cloud list but absent from the
coordination-service list still appears in the unfiltered `get_runners()`
result, as a merged RunnerInstance with `github_state = none`; its name is in
the "cloud only" warning set; and the call performs only the two read calls
(github list, cloud list) — no mutation, so nothing is deleted as a side
effect. -/
theorem c2_cloud_only_runner_kept
    (github_infos : List SelfHostedRunner)
    (cloud_infos : List CloudRunnerInstance)
    (c : CloudRunnerInstance) (hc : c ∈ cloud_infos)
    (habs : ∀ g ∈ github_infos, g.instance_id.name ≠ c.name) :
    (∃ r ∈ get_runners github_infos cloud_infos none none,
        r.name = c.name ∧ r.github_state = none) ∧
    c.name ∈ cloud_only_names github_infos cloud_infos ∧
    get_runners_events = [Event.listGithubRunners, Event.listCloudRunners] := by
  have ghNone :
      dictGet? (dictOf (fun info => info.instance_id.name) github_infos) c.name
        = none :=
    (dictGet?_dictOf_eq_none_iff _ _ _).mpr habs
  obtain ⟨v, hv⟩ :=
    dictGet?_dictOf_isSome (fun info => info.name) cloud_infos hc
  have hvval := dictGet?_dictOf_value hv
  have hentry : (c.name, v) ∈ dictOf (fun info => info.name) cloud_infos :=
    dictGet?_eq_some_mem hv
  refine ⟨?_, ?_, rfl⟩
  · refine ⟨RunnerInstance.ofCloudAndGithub v
        (dictGet? (dictOf (fun info => info.instance_id.name) github_infos)
          c.name), ?_, ?_, ?_⟩
    · simp only [get_runners]
      exact List.mem_map_of_mem
        (fun p => RunnerInstance.ofCloudAndGithub p.2
          (dictGet? (dictOf (fun info => info.instance_id.name) github_infos)
            p.1)) hentry
    · simp [RunnerInstance.ofCloudAndGithub, hvval.2]
    · simp [RunnerInstance.ofCloudAndGithub, ghNone]
  · rw [cloud_only_names, List.mem_filter]
    constructor
    · exact List.mem_map_of_mem Prod.fst hentry
    · simp [ghNone]

/-- Witness for C2: the theorem applied at a single cloud instance and an
empty coordination-service list. -/
theorem c2_cloud_only_runner_kept_witness :
    c2_cloud_instance ∈ [c2_cloud_instance] ∧
    (∃ r ∈ get_runners [] [c2_cloud_instance] none none,
        r.name = c2_cloud_instance.name ∧ r.github_state = none) ∧
    c2_cloud_instance.name ∈ cloud_only_names [] [c2_cloud_instance] :=
  ⟨List.mem_singleton.mpr rfl,
    (c2_cloud_only_runner_kept [] [c2_cloud_instance] c2_cloud_instance
        (List.mem_singleton.mpr rfl) (by intro g hg; simp at hg)).1,
    (c2_cloud_only_runner_kept [] [c2_cloud_instance] c2_cloud_instance
        (List.mem_singleton.mpr rfl) (by intro g hg; simp at hg)).2.1⟩

theorem spawn_runners_mp_loop_eq :
    ∀ (jobs : List (Except RunnerError InstanceID)) (acc : List InstanceID),
      spawn_runners_mp_loop jobs.length jobs acc = acc ++ successfulIds jobs := by
  intro jobs
  induction jobs with
  | nil => intro acc; simp [spawn_runners_mp_loop, successfulIds]
  | cons j rest ih =>
      intro acc
      cases j with
      | ok instance_id =>
          simp only [List.length_cons, spawn_runners_mp_loop, ih,
            successfulIds, List.filterMap_cons]
          simp [successfulIds, List.append_assoc]
      | error e =>
          simp only [List.length_cons, spawn_runners_mp_loop, ih,
            successfulIds, List.filterMap_cons]

theorem successfulIds_length (jobs : List (Except RunnerError InstanceID)) :
    (successfulIds jobs).length =
      jobs.countP (fun j =>
        match j with
        | Except.ok _ => true
        | Except.error _ => false) := by
  induction jobs with
  | nil => rfl
  | cons j rest ih =>
      cases j with
      | ok instance_id =>
          simp [successfulIds, List.filterMap_cons, List.countP_cons] at ih ⊢
          omega
      | error e =>
          simp [successfulIds, List.filterMap_cons, List.countP_cons] at ih ⊢
          omega

/-- Claim C3. For a creation batch with more than one job, the batch returns
normally (no per-job `RunnerError` reaches the caller) with exactly the
successful jobs' InstanceIDs, so its length is the number of jobs that
succeeded. -/
theorem c3_batch_creation_partial_failure
    (jobs : List (Except RunnerError InstanceID)) (h : 1 < jobs.length) :
    spawn_runners jobs = Except.ok (successfulIds jobs) ∧
    (successfulIds jobs).length =
      jobs.countP (fun j =>
        match j with
        | Except.ok _ => true
        | Except.error _ => false) := by
  constructor
  · rw [spawn_runners, if_neg (by omega)]
    rw [spawn_runners_using_multiprocessing, spawn_runners_mp_loop_eq]
    simp
  · exact successfulIds_length jobs

/-- Witness for C3: three jobs, the second failing, yield the two successful
InstanceIDs and no error. -/
theorem c3_batch_creation_partial_failure_witness :
    1 < c3_jobs.length ∧
    spawn_runners c3_jobs = Except.ok (successfulIds c3_jobs) :=
  ⟨by decide, (c3_batch_creation_partial_failure c3_jobs (by decide)).1⟩

/-- Counterexample for C4: a batch with exactly one failing creation job.
`_spawn_runners` catches the `RunnerError` and returns an empty tuple, so the
error does not propagate to the caller of `create_runners`, contradicting the
claim that the N == 1 failure propagates. -/
theorem c4_single_job_error_swallowed_counterexample :
    spawn_runners [Except.error RunnerError.mk] = Except.ok [] ∧
    spawn_runners [Except.error RunnerError.mk] ≠
      Except.error RunnerError.mk := by
  refine ⟨rfl, ?_⟩
  intro h
  rw [show spawn_runners [Except.error RunnerError.mk] = Except.ok [] from rfl]
    at h
  exact Except.noConfusion h

/-- Claim C4, amended. With exactly one creation job the job runs in the
current process without a pool, a success returns its InstanceID, and a
failure with `RunnerError` is caught and logged with the batch returning an
empty tuple — the N == 1 path follows the same no-propagation policy as the
batch paths. -/
theorem c4_single_job_inline_no_propagation
    (instance_id : InstanceID) (e : RunnerError) :
    spawn_runners [Except.ok instance_id] = Except.ok [instance_id] ∧
    spawn_runners [Except.error e] = Except.ok [] :=
  ⟨rfl, rfl⟩

theorem bind_delete_runner_events (runners : List RunnerInstance) :
    runners.flatMap (fun runner => delete_runner_events runner.name) =
      delete_batch_events (runners.map (fun runner => runner.name)) := by
  induction runners with
  | nil => rfl
  | cons r rest ih => simp [delete_batch_events, ih]

theorem delete_batch_events_filterMap_delete (names : List String) :
    (delete_batch_events names).filterMap deleteName? = names := by
  induction names with
  | nil => rfl
  | cons n rest ih =>
      simp [delete_batch_events, delete_runner_events, List.filterMap_cons,
        deleteName?] at ih ⊢
      exact ih

theorem delete_batch_events_filterMap_pull (names : List String) :
    (delete_batch_events names).filterMap pullName? = names := by
  induction names with
  | nil => rfl
  | cons n rest ih =>
      simp [delete_batch_events, delete_runner_events, List.filterMap_cons,
        pullName?] at ih ⊢
      exact ih

theorem delete_batch_events_count_token (names : List String) :
    (delete_batch_events names).count Event.getRemovalToken = 0 := by
  induction names with
  | nil => rfl
  | cons n rest ih =>
      simp [delete_batch_events, delete_runner_events, List.count_cons] at ih ⊢
      exact ih

theorem delete_batch_events_pull_before_delete (names : List String) :
    ∀ i n, (delete_batch_events names).get? i = some (Event.deleteInstance n) →
      ∃ j < i, (delete_batch_events names).get? j = some (Event.pullMetrics n) := by
  induction names with
  | nil => intro i n h; simp [delete_batch_events] at h
  | cons m rest ih =>
      intro i n h
      match i with
      | 0 => simp [delete_batch_events, delete_runner_events] at h
      | 1 => simp [delete_batch_events, delete_runner_events] at h
      | 2 =>
          have hn : n = m := by
            have := h
            simpa [delete_batch_events, delete_runner_events, eq_comm] using this
          exact ⟨0, by omega, by simp [delete_batch_events, delete_runner_events, hn]⟩
      | k + 3 =>
          have h' : (delete_batch_events rest).get? k =
              some (Event.deleteInstance n) := by
            simpa [delete_batch_events, delete_runner_events] using h
          obtain ⟨j, hj, hjp⟩ := ih k n h'
          refine ⟨j + 3, by omega, ?_⟩
          simpa [delete_batch_events, delete_runner_events] using hjp

/-- Claim C5. For every `num`, `delete_runners(num)` obtains exactly one removal
token, deletes exactly the first `num` runners of the unfiltered
`get_runners()` result in list order, pulls metrics for exactly those runners
in the same order, and every instance deletion is preceded by the pull of that
runner's metrics. -/
theorem c5_delete_runners_selection_and_order
    (github_infos : List SelfHostedRunner)
    (cloud_infos : List CloudRunnerInstance) (num : Nat) :
    ((delete_runners github_infos cloud_infos num).count
        Event.getRemovalToken = 1) ∧
    ((delete_runners github_infos cloud_infos num).filterMap deleteName? =
      ((get_runners github_infos cloud_infos none none).take num).map
        (fun runner => runner.name)) ∧
    ((delete_runners github_infos cloud_infos num).filterMap pullName? =
      ((get_runners github_infos cloud_infos none none).take num).map
        (fun runner => runner.name)) ∧
    (∀ i n,
      (delete_runners github_infos cloud_infos num).get? i =
          some (Event.deleteInstance n) →
      ∃ j < i, (delete_runners github_infos cloud_infos num).get? j =
          some (Event.pullMetrics n)) := by
  have htrace : delete_runners github_infos cloud_infos num =
      Event.listGithubRunners :: Event.listCloudRunners ::
        Event.getRemovalToken ::
          delete_batch_events
            (((get_runners github_infos cloud_infos none none).take num).map
              (fun runner => runner.name)) := by
    rw [delete_runners, bind_delete_runner_events]
    rfl
  rw [htrace]
  refine ⟨?_, ?_, ?_, ?_⟩
  · simp [List.count_cons, delete_batch_events_count_token]
  · simp [List.filterMap_cons, deleteName?,
      delete_batch_events_filterMap_delete]
  · simp [List.filterMap_cons, pullName?, delete_batch_events_filterMap_pull]
  · intro i n h
    match i with
    | 0 => simp at h
    | 1 => simp at h
    | 2 => simp at h
    | k + 3 =>
        have h' := delete_batch_events_pull_before_delete _ k n (by simpa using h)
        obtain ⟨j, hj, hjp⟩ := h'
        exact ⟨j + 3, by omega, by simpa using hjp⟩

/-- Witness for C5: deleting 2 runners out of a fleet of 5 issues exactly one
removal token and deletes exactly the first two instances of the
`get_runners()` result, in order. -/
theorem c5_delete_runners_selection_and_order_witness :
    ((delete_runners [] c5_cloud 2).count Event.getRemovalToken = 1) ∧
    ((delete_runners [] c5_cloud 2).filterMap deleteName? =
      ["r-5a", "r-5b"]) :=
  ⟨(c5_delete_runners_selection_and_order [] c5_cloud 2).1,
    ((c5_delete_runners_selection_and_order [] c5_cloud 2).2.1).trans
      (by decide)⟩

theorem get_runner_health_total
    (probe : OpenstackInstance → Nat → Except SshError Bool) :
    ∀ runner_list : List OpenstackInstance,
      (∀ r ∈ runner_list, state_unhealthy r = false →
        ∃ b, health_check probe r = Except.ok b) →
      get_runner_health probe runner_list =
        Except.ok ⟨runner_list.filter (classified_healthy probe),
          runner_list.filter (classified_unhealthy probe)⟩ := by
  intro runner_list
  induction runner_list with
  | nil => intro h; rfl
  | cons runner rest ih =>
      intro h
      have hrest := ih (fun r hr => h r (List.mem_cons_of_mem _ hr))
      cases hstate : state_unhealthy runner with
      | true =>
          rw [get_runner_health, if_pos (by simp [hstate]), hrest]
          have hh : classified_healthy probe runner = false := by
            simp [classified_healthy, hstate]
          have hu : classified_unhealthy probe runner = true := by
            simp [classified_unhealthy, hstate]
          simp [List.filter_cons, hh, hu]
      | false =>
          obtain ⟨b, hb⟩ := h runner (List.mem_cons_self _ _) hstate
          rw [get_runner_health, if_neg (by simp [hstate]), hb, hrest]
          cases b with
          | true =>
              have hh : classified_healthy probe runner = true := by
                simp [classified_healthy, hstate, hb]
              have hu : classified_unhealthy probe runner = false := by
                simp [classified_unhealthy, hstate, hb]
              simp [List.filter_cons, hh, hu]
          | false =>
              have hh : classified_healthy probe runner = false := by
                simp [classified_healthy, hstate, hb]
              have hu : classified_unhealthy probe runner = true := by
                simp [classified_unhealthy, hstate, hb]
              simp [List.filter_cons, hh, hu]

theorem mem_delete_batch_events (names : List String) (n : String) :
    Event.deleteInstance n ∈ delete_batch_events names ↔ n ∈ names := by
  induction names with
  | nil => simp [delete_batch_events]
  | cons m rest ih =>
      simp [delete_batch_events, delete_runner_events, ih, eq_comm]

/-- Claim C6. Cloud-side cleanup classifies every instance — deleted/error/
stopped cloud state is unhealthy regardless of the probe, otherwise the
process-presence probe decides — deletes exactly the unhealthy instances
(each deletion preceded by that instance's metrics pull) and extracts and
returns metrics exactly for the healthy instances, which are not deleted.
Stated for a pass in which each consulted probe returns a verdict (the SSH
error case is the subject of C7). -/
theorem c6_cleanup_classification
    (probe : OpenstackInstance → Nat → Except SshError Bool)
    (runner_list : List OpenstackInstance)
    (hprobe : ∀ r ∈ runner_list, state_unhealthy r = false →
      ∃ b, health_check probe r = Except.ok b)
    (hnames : (runner_list.map (fun r => r.server_name)).Nodup) :
    ∃ res, openstack_cleanup probe runner_list = Except.ok res ∧
      (∀ r ∈ runner_list,
        (Event.deleteInstance r.server_name ∈ res.2 ↔
          classified_unhealthy probe r = true)) ∧
      (∀ r ∈ runner_list,
        (r.server_name ∈ res.1 ↔ classified_healthy probe r = true)) ∧
      (∀ r ∈ runner_list,
        (classified_unhealthy probe r = true ↔
          (state_unhealthy r = true ∨
            health_check probe r = Except.ok false))) ∧
      (∀ r ∈ runner_list,
        (classified_healthy probe r = true ↔
          (state_unhealthy r = false ∧
            health_check probe r = Except.ok true))) ∧
      (∀ i n, res.2.get? i = some (Event.deleteInstance n) →
        ∃ j < i, res.2.get? j = some (Event.pullMetrics n)) := by
  rw [openstack_cleanup, get_runner_health_total probe runner_list hprobe]
  refine ⟨_, rfl, ?_, ?_, ?_, ?_, ?_⟩
  · intro r hr
    have hmem : Event.deleteInstance r.server_name ∈
        delete_batch_events
          ((runner_list.filter (classified_unhealthy probe)).map
            (fun r => r.server_name)) ++ [Event.cloudCleanupResources] ↔
        r.server_name ∈
          (runner_list.filter (classified_unhealthy probe)).map
            (fun r => r.server_name) := by
      simp [mem_delete_batch_events]
    rw [hmem]
    constructor
    · intro hname
      obtain ⟨r', hr', hname'⟩ := List.mem_map.mp hname
      have : r' = r :=
        List.inj_on_of_nodup_map hnames (List.mem_of_mem_filter hr') hr hname'
      subst this
      exact (List.mem_filter.mp hr').2
    · intro hun
      exact List.mem_map_of_mem _ (List.mem_filter.mpr ⟨hr, hun⟩)
  · intro r hr
    constructor
    · intro hname
      obtain ⟨r', hr', hname'⟩ := List.mem_map.mp hname
      have : r' = r :=
        List.inj_on_of_nodup_map hnames (List.mem_of_mem_filter hr') hr hname'
      subst this
      exact (List.mem_filter.mp hr').2
    · intro hh
      exact List.mem_map_of_mem _ (List.mem_filter.mpr ⟨hr, hh⟩)
  · intro r hr
    cases hhc : health_check probe r with
    | error e => simp [classified_unhealthy, hhc]
    | ok b => cases b <;> simp [classified_unhealthy, hhc]
  · intro r hr
    cases hhc : health_check probe r with
    | error e => simp [classified_healthy, hhc]
    | ok b => cases b <;> simp [classified_healthy, hhc]
  · intro i n h
    by_cases hlen : i <
        (delete_batch_events
          ((runner_list.filter (classified_unhealthy probe)).map
            (fun r => r.server_name))).length
    · rw [List.get?_append hlen] at h
      obtain ⟨j, hj, hjp⟩ :=
        delete_batch_events_pull_before_delete _ i n h
      exact ⟨j, hj, by rw [List.get?_append (lt_trans hj hlen)]; exact hjp⟩
    · rw [List.get?_append_right (le_of_not_lt hlen)] at h
      rcases hi : i -
          (delete_batch_events
            ((runner_list.filter (classified_unhealthy probe)).map
              (fun r => r.server_name))).length with _ | k
      · rw [hi] at h
        simp at h
      · rw [hi] at h
        simp at h

/-- Witness for C6: the theorem applied at the concrete fixture fleet. -/
theorem c6_cleanup_classification_witness :
    ∃ res, openstack_cleanup c6_probe c6_runner_list = Except.ok res ∧
      (∀ r ∈ c6_runner_list,
        (Event.deleteInstance r.server_name ∈ res.2 ↔
          classified_unhealthy c6_probe r = true)) ∧
      (∀ r ∈ c6_runner_list,
        (r.server_name ∈ res.1 ↔ classified_healthy c6_probe r = true)) ∧
      (∀ r ∈ c6_runner_list,
        (classified_unhealthy c6_probe r = true ↔
          (state_unhealthy r = true ∨
            health_check c6_probe r = Except.ok false))) ∧
      (∀ r ∈ c6_runner_list,
        (classified_healthy c6_probe r = true ↔
          (state_unhealthy r = false ∧
            health_check c6_probe r = Except.ok true))) ∧
      (∀ i n, res.2.get? i = some (Event.deleteInstance n) →
        ∃ j < i, res.2.get? j = some (Event.pullMetrics n)) :=
  c6_cleanup_classification c6_probe c6_runner_list
    (by
      intro r hr hstate
      exact ⟨r.server_name == "r-6a", rfl⟩)
    (by decide)

/-- Counterexample for C7: for an active instance whose probe fails with an
SSH error on all three attempts, cleanup does not classify the instance as
unhealthy and continue — the `SshError` propagates out of
`_get_runner_health` (no try block in the source loop) and aborts the whole
cleanup pass. -/
theorem c7_ssh_error_aborts_cleanup_counterexample :
    openstack_cleanup c7_fail_probe [c7_instance] =
      Except.error SshError.mk ∧
    ¬ ∃ res, openstack_cleanup c7_fail_probe [c7_instance] =
      Except.ok res := by
  refine ⟨rfl, ?_⟩
  rintro ⟨res, hres⟩
  rw [show openstack_cleanup c7_fail_probe [c7_instance] =
      Except.error SshError.mk from rfl] at hres
  exact Except.noConfusion hres

/-- Claim C7, amended. The health probe runs under a retry decorator with
3 tries, delay 5 and backoff factor 2; when an instance's probe fails with an
SSH error on all three attempts, `_health_check` re-raises the error, and the
error is not scoped to that instance: it propagates out of the health
classification and aborts the surrounding cleanup pass (the instance is not
counted as unhealthy). -/
theorem c7_retry_exhaustion_propagates
    (probe : OpenstackInstance → Nat → Except SshError Bool)
    (inst : OpenstackInstance) (rest : List OpenstackInstance)
    (hstate : state_unhealthy inst = false)
    (hfail : ∀ n, n < health_check_tries →
      ∃ e, probe inst n = Except.error e) :
    health_check_tries = 3 ∧ health_check_delay = 5 ∧
    health_check_backoff = 2 ∧
    (∃ e, health_check probe inst = Except.error e) ∧
    (∃ e, openstack_cleanup probe (inst :: rest) = Except.error e) := by
  obtain ⟨e0, he0⟩ := hfail 0 (by decide)
  obtain ⟨e1, he1⟩ := hfail 1 (by decide)
  obtain ⟨e2, he2⟩ := hfail 2 (by decide)
  have hhc : health_check probe inst = Except.error e2 := by
    rw [health_check, health_check_tries, retryCall, he0, retryCall, he1,
      retryCall, he2]
  refine ⟨rfl, rfl, rfl, ⟨e2, hhc⟩, ⟨e2, ?_⟩⟩
  rw [openstack_cleanup, get_runner_health, if_neg (by simp [hstate]), hhc]

/-- Witness for C7 (amended): the theorem applied at the concrete
always-failing probe. -/
theorem c7_retry_exhaustion_propagates_witness :
    state_unhealthy c7_instance = false ∧
    (∃ e, openstack_cleanup c7_fail_probe [c7_instance] =
      Except.error e) :=
  ⟨by decide,
    (c7_retry_exhaustion_propagates c7_fail_probe c7_instance []
        (by decide) (fun n _ => ⟨SshError.mk, rfl⟩)).2.2.2.2⟩

/-- Counterexample for C8: with an oversize pre-job file, the pull raises
`_PullFileError` inside `_pull_runner_metrics`'s single try block, which
skips the remainder of the block — so the 10-byte post-job sibling is NOT
pulled, contradicting the claim that the skip does not prevent the sibling
pull.  (No error escapes the pull, as the claim also says.) -/
theorem c8_oversize_prejob_blocks_sibling_counterexample :
    pull_runner_metrics c8_env true = Except.ok [] ∧
    ¬ ∃ pulled, pull_runner_metrics c8_env true = Except.ok pulled ∧
      post_job_metrics_path ∈ pulled := by
  refine ⟨rfl, ?_⟩
  rintro ⟨pulled, hp, hmem⟩
  rw [show pull_runner_metrics c8_env true = Except.ok [] from rfl] at hp
  cases hp
  simp at hmem

theorem ssh_pull_file_ne_sshError (env : SshEnv) (remote_path : String)
    (max_size : Nat) (hssh : env.sshOk = true) :
    ssh_pull_file env remote_path max_size ≠
      Except.error PullError.sshError := by
  rw [ssh_pull_file]
  simp only [hssh, Bool.not_true, Bool.false_eq_true, if_false]
  cases env.fileSize remote_path with
  | none => simp
  | some size =>
      by_cases hs : size > max_size
      · simp [hs]
      · by_cases hg : env.getOk remote_path <;> simp [hs, hg]

/-- Claim C8, amended. A metrics file exceeding 1024 bytes is skipped without
any error escaping the pull, and the only exception `_pull_runner_metrics`
can raise at all is an SSH connection error, which the surrounding
`_delete_runner` catches — metrics pulling never fails the surrounding delete
or cleanup.  However the two pulls share one try block: an oversize post-job
file does not affect the already-pulled pre-job file, but an oversize
pre-job file aborts the rest of the block, so the post-job sibling is NOT
pulled. -/
theorem c8_oversize_skip_amended (env : SshEnv) (hssh : env.sshOk = true) :
    (∀ storageOk, ∃ pulled,
      pull_runner_metrics env storageOk = Except.ok pulled) ∧
    (∀ size, env.fileSize pre_job_metrics_path = some size →
      MAX_METRICS_FILE_SIZE < size →
      pull_runner_metrics env true = Except.ok []) ∧
    (∀ size, env.fileSize post_job_metrics_path = some size →
      MAX_METRICS_FILE_SIZE < size →
      ssh_pull_file env pre_job_metrics_path MAX_METRICS_FILE_SIZE =
        Except.ok () →
      pull_runner_metrics env true = Except.ok [pre_job_metrics_path]) ∧
    (∀ (env₀ : SshEnv) (storageOk : Bool) (e : PullError),
      pull_runner_metrics env₀ storageOk = Except.error e →
      e = PullError.sshError ∧
        delete_runner_pull_phase env₀ storageOk = []) := by
  refine ⟨?_, ?_, ?_, ?_⟩
  · intro storageOk
    cases storageOk with
    | false => exact ⟨[], rfl⟩
    | true =>
        cases h1 : ssh_pull_file env pre_job_metrics_path
            MAX_METRICS_FILE_SIZE with
        | error e =>
            cases e with
            | sshError =>
                exact absurd h1 (ssh_pull_file_ne_sshError env _ _ hssh)
            | pullFileError => exact ⟨[], by simp [pull_runner_metrics, h1]⟩
        | ok u =>
            cases h2 : ssh_pull_file env post_job_metrics_path
                MAX_METRICS_FILE_SIZE with
            | error e =>
                cases e with
                | sshError =>
                    exact absurd h2 (ssh_pull_file_ne_sshError env _ _ hssh)
                | pullFileError =>
                    exact ⟨[pre_job_metrics_path],
                      by simp [pull_runner_metrics, h1, h2]⟩
            | ok v =>
                exact ⟨[pre_job_metrics_path, post_job_metrics_path],
                  by simp [pull_runner_metrics, h1, h2]⟩
  · intro size hsize hbig
    have h1 : ssh_pull_file env pre_job_metrics_path MAX_METRICS_FILE_SIZE =
        Except.error PullError.pullFileError := by
      rw [ssh_pull_file]
      simp [hssh, hsize, hbig]
    simp [pull_runner_metrics, h1]
  · intro size hsize hbig hpre
    have h2 : ssh_pull_file env post_job_metrics_path MAX_METRICS_FILE_SIZE =
        Except.error PullError.pullFileError := by
      rw [ssh_pull_file]
      simp [hssh, hsize, hbig]
    simp [pull_runner_metrics, hpre, h2]
  · intro env₀ storageOk e h
    have he : e = PullError.sshError := by
      cases storageOk with
      | false => simp [pull_runner_metrics] at h
      | true =>
          rw [pull_runner_metrics] at h
          simp only [Bool.not_true, Bool.false_eq_true, if_false] at h
          cases h1 : ssh_pull_file env₀ pre_job_metrics_path
              MAX_METRICS_FILE_SIZE with
          | error pe =>
              rw [h1] at h
              cases pe with
              | sshError => simpa using h.symm
              | pullFileError => simp at h
          | ok u =>
              rw [h1] at h
              cases h2 : ssh_pull_file env₀ post_job_metrics_path
                  MAX_METRICS_FILE_SIZE with
              | error pe =>
                  rw [h2] at h
                  cases pe with
                  | sshError => simpa using h.symm
                  | pullFileError => simp at h
              | ok v => rw [h2] at h; simp at h
    exact ⟨he, by rw [delete_runner_pull_phase, h]⟩

/-- Witness for C8 (amended): applied at the concrete environment with an
oversize pre-job file. -/
theorem c8_oversize_skip_amended_witness :
    c8_env.sshOk = true ∧
    pull_runner_metrics c8_env true = Except.ok [] :=
  ⟨rfl, (c8_oversize_skip_amended c8_env rfl).2.1 2000 rfl (by decide)⟩

/-- Claim C9. Calling `flush_runners(FLUSH_IDLE)` passes include-busy = false to the
cloud manager's flush and `flush_runners(FLUSH_BUSY)` passes include-busy =
true; each mode obtains exactly one removal token and performs no other call,
delegating selection and removal to the cloud manager — whose flush removes
exactly the idle instances when the flag is false and all instances when the
flag is true. -/
theorem c9_flush_modes (instances : List FlushCandidate) :
    flush_runners FlushMode.FLUSH_IDLE =
      [Event.getRemovalToken, Event.cloudFlush false] ∧
    flush_runners FlushMode.FLUSH_BUSY =
      [Event.getRemovalToken, Event.cloudFlush true] ∧
    (flush_runners FlushMode.FLUSH_IDLE).count Event.getRemovalToken = 1 ∧
    (flush_runners FlushMode.FLUSH_BUSY).count Event.getRemovalToken = 1 ∧
    (∀ i ∈ instances,
      (i ∈ cloud_flush_selection false instances ↔ i.busy = false)) ∧
    (∀ i ∈ instances, i ∈ cloud_flush_selection true instances) := by
  refine ⟨rfl, rfl, by decide, by decide, ?_, ?_⟩
  · intro i hi
    rw [cloud_flush_selection, List.mem_filter]
    simp [hi]
  · intro i hi
    rw [cloud_flush_selection, List.mem_filter]
    simp [hi]

/-- Witness for C9: applied at a concrete two-instance fleet, the busy
instance is kept by flush-idle's selection and removed by flush-busy's. -/
theorem c9_flush_modes_witness :
    flush_runners FlushMode.FLUSH_IDLE =
      [Event.getRemovalToken, Event.cloudFlush false] ∧
    ((⟨"r-9b", true⟩ : FlushCandidate) ∈
      cloud_flush_selection true [⟨"r-9a", false⟩, ⟨"r-9b", true⟩]) ∧
    ¬ ((⟨"r-9b", true⟩ : FlushCandidate) ∈
      cloud_flush_selection false [⟨"r-9a", false⟩, ⟨"r-9b", true⟩]) :=
  ⟨(c9_flush_modes []).1,
    (c9_flush_modes [⟨"r-9a", false⟩, ⟨"r-9b", true⟩]).2.2.2.2.2
      ⟨"r-9b", true⟩ (by simp),
    fun hmem =>
      by simpa using
        ((c9_flush_modes [⟨"r-9a", false⟩, ⟨"r-9b", true⟩]).2.2.2.2.1
          ⟨"r-9b", true⟩ (by simp)).mp hmem⟩

/-- Claim C10. When the cloud-side create fails with a runner error after the
registration happened, `_create_runner` deletes the just-registered
coordination-service record (the delete call follows the registration in the
trace) and then propagates exactly that error to its caller — a failed
creation never leaves its own registration behind. -/
theorem c10_failed_create_deletes_registration
    (cloud_create : Except RunnerError Unit) (instance_id : InstanceID)
    (e : RunnerError) (h : cloud_create = Except.error e) :
    (create_runner cloud_create instance_id).1 = Except.error e ∧
    (create_runner cloud_create instance_id).2 =
      [Event.githubRegisterRunner instance_id,
       Event.githubDeleteRunner instance_id] := by
  subst h
  exact ⟨rfl, rfl⟩

/-- Witness for C10: applied at a concrete failing cloud create. -/
theorem c10_failed_create_deletes_registration_witness :
    (Except.error RunnerError.mk : Except RunnerError Unit) =
      Except.error RunnerError.mk ∧
    (create_runner (Except.error RunnerError.mk) ⟨"r-10", true⟩).1 =
      Except.error RunnerError.mk ∧
    (create_runner (Except.error RunnerError.mk) ⟨"r-10", true⟩).2 =
      [Event.githubRegisterRunner ⟨"r-10", true⟩,
       Event.githubDeleteRunner ⟨"r-10", true⟩] :=
  ⟨rfl,
    (c10_failed_create_deletes_registration (Except.error RunnerError.mk)
        ⟨"r-10", true⟩ RunnerError.mk rfl).1,
    (c10_failed_create_deletes_registration (Except.error RunnerError.mk)
        ⟨"r-10", true⟩ RunnerError.mk rfl).2⟩
